import Mathlib

/-!
Shallow embedding of the LibCanComm library (cancomm.c / cancomm.h).

Pure computations are translated to Lean functions; syscall-dependent
functions take an explicit environment record describing the outcome of
each kernel interaction and return a record of the result value, the
outputs stored through pointer parameters (`none` = the C code never
wrote to that output), and the updated context.

Machine integers are modelled as `Nat` with explicit reductions modulo
2^w where the C code can overflow or truncate.
-/

namespace Cancomm

/-! ## Constants from cancomm.h -/

def CANCOMM_TRUE : Nat := 1

def CANCOMM_FALSE : Nat := 0

def CANCOMM_FLAG_CANFD_MSG : Nat := 0x01

def CANCOMM_FLAG_CANERR_MSG : Nat := 0x80

/-! ## Constants from the kernel headers (linux/can.h, net/if.h) -/

def CAN_EFF_FLAG : Nat := 0x80000000

def CAN_RTR_FLAG : Nat := 0x40000000

def CAN_ERR_FLAG : Nat := 0x20000000

def CAN_MAX_DLEN : Nat := 8

def CANFD_MAX_DLEN : Nat := 64

/-- sizeof(struct can_frame) -/
def CAN_MTU : Nat := 16

/-- sizeof(struct canfd_frame) -/
def CANFD_MTU : Nat := 72

def CANFD_BRS : Nat := 0x01

def IFNAMSIZ : Nat := 16

def UINT32_MOD : Nat := 2 ^ 32

def UINT64_MOD : Nat := 2 ^ 64

/-- CANCOMM_INVALID_SOCKET is the int literal (-1); the context stores it in
the uint32_t field `socket`, where it converts to 2^32 - 1.  All comparisons
the source performs against CANCOMM_INVALID_SOCKET happen at that field's
unsigned type, so the sentinel is modelled as the converted value. -/
def CANCOMM_INVALID_SOCKET : Nat := UINT32_MOD - 1

/-! ## Length Normalizer: cancomm_sanitize_frame_len -/

/-- The static len2dlc table of cancomm_sanitize_frame_len, indices 0..64. -/
def len2dlc : List Nat :=
  [ 0,  1,  2,  3,  4,  5,  6,  7,  8,    --  0 -  8
    9,  9,  9,  9,                        --  9 - 12
   10, 10, 10, 10,                        -- 13 - 16
   11, 11, 11, 11,                        -- 17 - 20
   12, 12, 12, 12,                        -- 21 - 24
   13, 13, 13, 13, 13, 13, 13, 13,        -- 25 - 32
   14, 14, 14, 14, 14, 14, 14, 14,        -- 33 - 40
   14, 14, 14, 14, 14, 14, 14, 14,        -- 41 - 48
   15, 15, 15, 15, 15, 15, 15, 15,        -- 49 - 56
   15, 15, 15, 15, 15, 15, 15, 15 ]      -- 57 - 64

/-- The static dlc2len table of cancomm_sanitize_frame_len, indices 0..15. -/
def dlc2len : List Nat :=
  [0, 1, 2, 3, 4, 5, 6, 7, 8, 12, 16, 20, 24, 32, 48, 64]

/-- cancomm_sanitize_frame_len: clamp to CANFD_MAX_DLEN, then the two-stage
table lookup len -> dlc -> len. -/
def cancomm_sanitize_frame_len (len : Nat) : Nat :=
  let frame_len := if len > CANFD_MAX_DLEN then CANFD_MAX_DLEN else len
  let frame_dlc := len2dlc.getD frame_len 0
  dlc2len.getD frame_dlc 0

/-! ## Data model: struct cancomm_ctx and struct canfd_frame -/

/-- struct cancomm_ctx.  `socket` is the uint32_t raw socket handle (also the
connection-state indicator), `fd_enabled` the uint8_t CAN FD flag,
`connectTime` the uint64_t connection instant in microseconds,
`devices_cnt` the uint32_t device count and `devices_list` the dynamically
allocated array of IFNAMSIZ-wide device-name entries (one list element per
stored entry). -/
structure cancomm_ctx where
  socket : Nat
  fd_enabled : Nat
  connectTime : Nat
  devices_cnt : Nat
  devices_list : List String
deriving Repr, DecidableEq

/-- cancomm_new: the freshly initialized context (the malloc-failure path
returns no context at all and is not modelled further). -/
def cancomm_new : cancomm_ctx :=
  { socket := CANCOMM_INVALID_SOCKET
    fd_enabled := CANCOMM_FALSE
    connectTime := 0
    devices_cnt := 0
    devices_list := [] }

/-- struct canfd_frame: identifier word, payload length, flags byte and the
64-byte data area. -/
structure canfd_frame where
  can_id : Nat
  len : Nat
  flags : Nat
  data : List Nat
deriving Repr, DecidableEq

/-! ## Transmit Engine: cancomm_transmit -/

/-- Outcomes of the kernel interactions cancomm_transmit performs:
the return value of write(), and whether/when gettimeofday() succeeds. -/
structure TxEnv where
  writeRet : Int
  gtodOk : Bool
  nowUsec : Nat
deriving Repr, DecidableEq

/-- Result of one cancomm_transmit call: the returned uint8_t, the frame and
byte count handed to write() (`none` when no write was attempted), the value
stored through the timestamp output pointer (`none` when never written), and
the context as left behind (the source never assigns to the context in this
function). -/
structure TxResult where
  result : Nat
  written : Option (canfd_frame × Nat)
  timestampOut : Option Nat
  ctxAfter : cancomm_ctx
deriving Repr, DecidableEq

/-- The uint64 wrap-around subtraction `now - connectTime` the source
performs on the timestamp output. -/
def relTimestamp (nowUsec connectTime : Nat) : Nat :=
  (nowUsec % UINT64_MOD + (UINT64_MOD - connectTime % UINT64_MOD)) % UINT64_MOD

/-- The frame construction block of cancomm_transmit (lines building
canTxFrame): identifier with optional CAN_EFF_FLAG, sanitized length, the
flags byte as already prepared by the mode selection, and the zero-filled
64-byte data area with the first len caller bytes copied in. -/
def buildTxFrame (id ext len : Nat) (data : List Nat) (txFlags : Nat) :
    canfd_frame :=
  { can_id := if ext = CANCOMM_TRUE then Nat.lor id CAN_EFF_FLAG else id
    len := cancomm_sanitize_frame_len len
    flags := txFlags
    data := (List.range CANFD_MAX_DLEN).map
      (fun i => if i < len then data.getD i 0 else 0) }

/-- cancomm_transmit.  Parameter checks on pointers are modelled away (the
embedding passes values); the length precondition `len <= CANFD_MAX_DLEN`
and the connection check are translated literally, as are the CAN FD mode
selection, the frame construction and the write-size test. -/
def cancomm_transmit (ctx : cancomm_ctx) (id ext len : Nat) (data : List Nat)
    (flags : Nat) (env : TxEnv) : TxResult :=
  if len ≤ CANFD_MAX_DLEN then
    if ctx.socket ≠ CANCOMM_INVALID_SOCKET then
      -- settings start as CAN classic; switch to CAN FD when negotiated and requested
      let canfdMode : Bool :=
        (ctx.fd_enabled != 0) && (Nat.land flags CANCOMM_FLAG_CANFD_MSG != 0)
      let frameLenMax := if canfdMode then CANFD_MAX_DLEN else CAN_MAX_DLEN
      let frameSizeMax := if canfdMode then CANFD_MTU else CAN_MTU
      let txFlags := if canfdMode then Nat.lor 0 CANFD_BRS else 0
      if len ≤ frameLenMax then
        let frame := buildTxFrame id ext len data txFlags
        if env.writeRet = (frameSizeMax : Int) then
          let ts := if env.gtodOk then relTimestamp env.nowUsec ctx.connectTime else 0
          { result := CANCOMM_TRUE, written := some (frame, frameSizeMax)
            timestampOut := some ts, ctxAfter := ctx }
        else
          { result := CANCOMM_FALSE, written := some (frame, frameSizeMax)
            timestampOut := none, ctxAfter := ctx }
      else
        { result := CANCOMM_FALSE, written := none, timestampOut := none
          ctxAfter := ctx }
    else
      { result := CANCOMM_FALSE, written := none, timestampOut := none
        ctxAfter := ctx }
  else
    { result := CANCOMM_FALSE, written := none, timestampOut := none
      ctxAfter := ctx }

/-- The active maximum payload cancomm_transmit selects. -/
def txFrameLenMax (ctx : cancomm_ctx) (flags : Nat) : Nat :=
  if (ctx.fd_enabled != 0) && (Nat.land flags CANCOMM_FLAG_CANFD_MSG != 0) then
    CANFD_MAX_DLEN
  else
    CAN_MAX_DLEN

/-- The active wire-frame size cancomm_transmit selects. -/
def txFrameSizeMax (ctx : cancomm_ctx) (flags : Nat) : Nat :=
  if (ctx.fd_enabled != 0) && (Nat.land flags CANCOMM_FLAG_CANFD_MSG != 0) then
    CANFD_MTU
  else
    CAN_MTU

/-- The flags byte cancomm_transmit gives the wire frame. -/
def txFrameFlags (ctx : cancomm_ctx) (flags : Nat) : Nat :=
  if (ctx.fd_enabled != 0) && (Nat.land flags CANCOMM_FLAG_CANFD_MSG != 0) then
    Nat.lor 0 CANFD_BRS
  else
    0

/-! ## Receive Engine: cancomm_receive -/

/-- Outcomes of the kernel interactions cancomm_receive performs: the
return value of read() (an ssize_t), the buffer contents after the read,
and the SIOCGSTAMP ioctl outcome. -/
structure RxEnv where
  readRet : Int
  frame : canfd_frame
  stampOk : Bool
  stampUsec : Nat
deriving Repr, DecidableEq

/-- Result of one cancomm_receive call: the returned uint8_t and the value
stored through each output pointer (`none` = the C code never wrote it),
plus the context as left behind (the source never assigns to the context
in this function). -/
structure RxResult where
  result : Nat
  idOut : Option Nat
  extOut : Option Nat
  lenOut : Option Nat
  dataOut : Option (List Nat)
  flagsOut : Option Nat
  timestampOut : Option Nat
  ctxAfter : cancomm_ctx
deriving Repr, DecidableEq

/-- The size_t variable frameSize of cancomm_receive: the ssize_t read()
return value converted to the unsigned 64-bit type (-1 becomes 2^64-1,
so it can never equal CAN_MTU or CANFD_MTU). -/
def rxFrameSize (readRet : Int) : Nat :=
  (readRet.emod (UINT64_MOD : Int)).toNat

/-- cancomm_receive.  Pointer validity checks are modelled away; the
connection check, the frame-size acceptance test, the remote-frame discard,
the error-frame branch and the data-frame copy are translated literally. -/
def cancomm_receive (ctx : cancomm_ctx) (env : RxEnv) : RxResult :=
  if ctx.socket ≠ CANCOMM_INVALID_SOCKET then
    let frameSize := rxFrameSize env.readRet
    if frameSize = CANFD_MTU ∨ frameSize = CAN_MTU then
      if Nat.land env.frame.can_id CAN_RTR_FLAG = 0 then
        let ts := if env.stampOk then relTimestamp env.stampUsec ctx.connectTime else 0
        if Nat.land env.frame.can_id CAN_ERR_FLAG ≠ 0 then
          -- error frame: flags reset then CANERR bit set; id/ext/len zeroed
          { result := CANCOMM_TRUE, idOut := some 0, extOut := some CANCOMM_FALSE
            lenOut := some 0, dataOut := none
            flagsOut := some (Nat.lor 0 CANCOMM_FLAG_CANERR_MSG)
            timestampOut := some ts, ctxAfter := ctx }
        else
          { result := CANCOMM_TRUE
            idOut := some (Nat.land env.frame.can_id (UINT32_MOD - 1 - CAN_EFF_FLAG))
            extOut := some (if Nat.land env.frame.can_id CAN_EFF_FLAG ≠ 0 then
              CANCOMM_TRUE else CANCOMM_FALSE)
            lenOut := some env.frame.len
            dataOut := some (env.frame.data.take env.frame.len)
            flagsOut := some (if frameSize = CANFD_MTU then
              Nat.lor 0 CANCOMM_FLAG_CANFD_MSG else 0)
            timestampOut := some ts, ctxAfter := ctx }
      else
        { result := CANCOMM_FALSE, idOut := none, extOut := none, lenOut := none
          dataOut := none, flagsOut := none, timestampOut := none, ctxAfter := ctx }
    else
      { result := CANCOMM_FALSE, idOut := none, extOut := none, lenOut := none
        dataOut := none, flagsOut := none, timestampOut := none, ctxAfter := ctx }
  else
    { result := CANCOMM_FALSE, idOut := none, extOut := none, lenOut := none
      dataOut := none, flagsOut := none, timestampOut := none, ctxAfter := ctx }

/-! ## Connection Manager: cancomm_disconnect and cancomm_connect -/

/-- cancomm_disconnect: close and reset the handle only when connected. -/
def cancomm_disconnect (ctx : cancomm_ctx) : cancomm_ctx :=
  if ctx.socket ≠ CANCOMM_INVALID_SOCKET then
    { ctx with socket := CANCOMM_INVALID_SOCKET }
  else
    ctx

/-- Outcomes of the kernel interactions cancomm_connect performs, in source
order: gettimeofday(), socket(), the SIOCGIFMTU ioctl and the MTU it
reports, the CAN_RAW_FD_FRAMES setsockopt, the two fcntl calls, the
SIOCGIFINDEX ioctl and bind(). -/
structure ConnEnv where
  gtodOk : Bool
  nowUsec : Nat
  socketRet : Int
  mtuIoctlOk : Bool
  ifrMtu : Int
  setsockoptOk : Bool
  fcntlGetRet : Int
  fcntlSetOk : Bool
  ifindexOk : Bool
  bindOk : Bool
deriving Repr, DecidableEq

/-- Result of one cancomm_connect call: the returned uint8_t, the context as
left behind, whether socket() actually produced a descriptor (a nonnegative
return), and whether close() was called on that descriptor during the call. -/
structure ConnResult where
  result : Nat
  ctxAfter : cancomm_ctx
  sockCreated : Bool
  sockClosed : Bool
deriving Repr, DecidableEq

/-- cancomm_connect.  The result starts CANCOMM_TRUE and each block only
runs while it is still CANCOMM_TRUE, so a failing step skips the rest.
The socket() return value is stored into the uint32_t handle field (so -1
becomes 2^32-1) and the source's `< 0` failure test compares that unsigned
field against 0, which can never hold; the branch is kept literally and is
dead.  The MTU probe, the CAN FD downgrade, the non-blocking switch, the
interface-index lookup and bind are translated block by block. -/
def cancomm_connect (ctx : cancomm_ctx) (env : ConnEnv) : ConnResult :=
  -- make sure we are not already connected
  let ctx0 := cancomm_disconnect ctx
  if ¬ env.gtodOk then
    -- gettimeofday failed: result becomes CANCOMM_FALSE, every later block skipped
    { result := CANCOMM_FALSE, ctxAfter := ctx0, sockCreated := false
      sockClosed := false }
  else
    let ctx1 := { ctx0 with connectTime := env.nowUsec % UINT64_MOD }
    -- socket(): the handle is assigned first, then tested
    let sockVal := (env.socketRet.emod (UINT32_MOD : Int)).toNat
    let created := decide (0 ≤ env.socketRet)
    let ctx2 := { ctx1 with socket := sockVal }
    if sockVal < 0 then
      -- unsigned `< 0`: unreachable
      { result := CANCOMM_FALSE, ctxAfter := ctx2, sockCreated := created
        sockClosed := false }
    else
      -- MTU probe: keep CAN_MTU unless the ioctl succeeds with a supported value
      let deviceMtu : Int :=
        if env.mtuIoctlOk ∧ (env.ifrMtu = (CAN_MTU : Int) ∨ env.ifrMtu = (CANFD_MTU : Int))
        then env.ifrMtu else (CAN_MTU : Int)
      let fd1 := if deviceMtu = (CANFD_MTU : Int) then CANCOMM_TRUE else CANCOMM_FALSE
      -- CAN FD socket option: on failure silently fall back to CAN classic
      let fd2 := if fd1 = CANCOMM_TRUE ∧ ¬ env.setsockoptOk then CANCOMM_FALSE else fd1
      let ctx3 := { ctx2 with fd_enabled := fd2 }
      if ¬ env.fcntlSetOk then
        { result := CANCOMM_FALSE
          ctxAfter := { ctx3 with socket := CANCOMM_INVALID_SOCKET }
          sockCreated := created, sockClosed := true }
      else if ¬ env.ifindexOk then
        { result := CANCOMM_FALSE
          ctxAfter := { ctx3 with socket := CANCOMM_INVALID_SOCKET }
          sockCreated := created, sockClosed := true }
      else if ¬ env.bindOk then
        { result := CANCOMM_FALSE
          ctxAfter := { ctx3 with socket := CANCOMM_INVALID_SOCKET }
          sockCreated := created, sockClosed := true }
      else
        { result := CANCOMM_TRUE, ctxAfter := ctx3, sockCreated := created
          sockClosed := false }

/-! ## Device Enumerator: cancomm_devices_buildlist and cancomm_devices_name -/

/-- Outcomes of the kernel interactions cancomm_devices_buildlist performs:
whether getifaddrs succeeds, the interface list it reports (each name paired
with the outcome of the cancomm_devices_is_can probe for it, which itself
depends on a transient socket and an ioctl), and the outcome of each
realloc call, indexed by the device counter at the time of the call. -/
structure BuildEnv where
  getifaddrsOk : Bool
  interfaces : List (String × Bool)
  reallocOk : Nat → Bool

/-- The interface-walking loop of cancomm_devices_buildlist: for every
CAN interface the counter is incremented, the list grown by realloc (a
failure resets the counter to zero, drops the list and breaks the loop) and
the name stored in the new entry. -/
def buildLoop : List (String × Bool) → (Nat → Bool) → Nat → List String →
    Nat × List String
  | [], _, cnt, lst => (cnt, lst)
  | (name, isCan) :: rest, rOk, cnt, lst =>
    if isCan then
      if rOk (cnt + 1) then
        buildLoop rest rOk (cnt + 1) (lst.take cnt ++ [name])
      else
        (0, [])
    else
      buildLoop rest rOk cnt lst

/-- cancomm_devices_buildlist: reset the device count, walk the interfaces
when getifaddrs succeeds, and return the resulting count through the
uint8_t return type (truncating the uint32_t counter modulo 256). -/
def cancomm_devices_buildlist (ctx : cancomm_ctx) (env : BuildEnv) :
    Nat × cancomm_ctx :=
  let ctx0 := { ctx with devices_cnt := 0 }
  if env.getifaddrsOk then
    let r := buildLoop env.interfaces env.reallocOk 0 ctx0.devices_list
    (r.1 % 256, { ctx0 with devices_cnt := r.1, devices_list := r.2 })
  else
    (0, ctx0)

/-- cancomm_devices_name: the entry at index idx of the device list when
idx is below the stored device count, NULL otherwise. -/
def cancomm_devices_name (ctx : cancomm_ctx) (idx : Nat) : Option String :=
  if idx < ctx.devices_cnt then some (ctx.devices_list.getD idx "") else none

/-- An environment reporting 256 CAN interfaces with every realloc
succeeding. -/
def envManyDevices : BuildEnv :=
  { getifaddrsOk := true
    interfaces := List.replicate 256 ("vcan0", true)
    reallocOk := fun _ => true }

/-- An environment reporting one CAN interface. -/
def envOneDevice : BuildEnv :=
  { getifaddrsOk := true
    interfaces := [("vcan0", true)]
    reallocOk := fun _ => true }

/-! ## Theorems -/

/-- Clamping first lets every question about the normalizer be decided on
the finite domain 0..64. -/
theorem sanitize_frame_len_clamp (len : Nat) :
    cancomm_sanitize_frame_len len =
      cancomm_sanitize_frame_len (min len CANFD_MAX_DLEN) := by
  unfold cancomm_sanitize_frame_len
  rcases le_or_lt len CANFD_MAX_DLEN with h | h
  · simp [min_eq_left h]
  · simp [Nat.not_lt.mpr (le_refl CANFD_MAX_DLEN), min_eq_right h.le, h]

/-- C1: cancomm_sanitize_frame_len clamps its byte argument to 64 and then
returns the smallest member of {0..8,12,16,20,24,32,48,64} that is greater
than or equal to the clamped value; consequently the result is >= the
clamped value, lies in that set, the function is idempotent, and it is
monotonically non-decreasing. -/
theorem claim_C1_sanitize_frame_len (len : Nat) :
    cancomm_sanitize_frame_len len ∈ dlc2len ∧
    min len CANFD_MAX_DLEN ≤ cancomm_sanitize_frame_len len ∧
    (∀ m ∈ dlc2len, min len CANFD_MAX_DLEN ≤ m →
        cancomm_sanitize_frame_len len ≤ m) ∧
    cancomm_sanitize_frame_len (cancomm_sanitize_frame_len len) =
      cancomm_sanitize_frame_len len ∧
    (∀ len2, len ≤ len2 →
        cancomm_sanitize_frame_len len ≤ cancomm_sanitize_frame_len len2) := by
  have hbound : ∀ l, min l CANFD_MAX_DLEN < 65 := by
    intro l
    have h1 : min l CANFD_MAX_DLEN ≤ CANFD_MAX_DLEN := min_le_right _ _
    have h2 : CANFD_MAX_DLEN = 64 := rfl
    omega
  have key : ∀ l < 65,
      cancomm_sanitize_frame_len l ∈ dlc2len ∧
      l ≤ cancomm_sanitize_frame_len l ∧
      (∀ m ∈ dlc2len, l ≤ m → cancomm_sanitize_frame_len l ≤ m) ∧
      cancomm_sanitize_frame_len (cancomm_sanitize_frame_len l) =
        cancomm_sanitize_frame_len l := by decide
  have mono : ∀ a < 65, ∀ b < 65, a ≤ b →
      cancomm_sanitize_frame_len a ≤ cancomm_sanitize_frame_len b := by decide
  have hmin := hbound len
  obtain ⟨k1, k2, k3, k4⟩ := key (min len CANFD_MAX_DLEN) hmin
  rw [sanitize_frame_len_clamp len]
  refine ⟨k1, k2, k3, k4, ?_⟩
  intro len2 hle
  rw [sanitize_frame_len_clamp len2]
  exact mono _ hmin _ (hbound len2) (min_le_min_right _ hle)

/-- Witness for C1 at len = 14: the normalizer result 16 is bounded by the
set member 16. -/
theorem claim_C1_sanitize_frame_len_witness :
    cancomm_sanitize_frame_len 14 ≤ 16 :=
  (claim_C1_sanitize_frame_len 14).2.2.1 16 (by decide) (by decide)

/-- On a connected context with a fitting length, cancomm_transmit hands
exactly the constructed frame and the active wire size to write(). -/
theorem transmit_written_eq (ctx : cancomm_ctx) (id ext len : Nat)
    (data : List Nat) (flags : Nat) (env : TxEnv)
    (hconn : ctx.socket ≠ CANCOMM_INVALID_SOCKET)
    (hlen : len ≤ txFrameLenMax ctx flags) :
    (cancomm_transmit ctx id ext len data flags env).written =
      some (buildTxFrame id ext len data (txFrameFlags ctx flags),
        txFrameSizeMax ctx flags) := by
  have hmax : txFrameLenMax ctx flags ≤ CANFD_MAX_DLEN := by
    unfold txFrameLenMax
    split <;> simp [CAN_MAX_DLEN, CANFD_MAX_DLEN]
  have h64 : len ≤ CANFD_MAX_DLEN := le_trans hlen hmax
  unfold cancomm_transmit txFrameLenMax txFrameSizeMax txFrameFlags at *
  rw [if_pos h64, if_pos hconn]
  by_cases hmode :
      ((ctx.fd_enabled != 0) && (Nat.land flags CANCOMM_FLAG_CANFD_MSG != 0) : Bool)
  · simp only [hmode, if_true] at hlen ⊢
    rw [if_pos hlen]
    split <;> rfl
  · rw [Bool.not_eq_true] at hmode
    simp only [hmode, Bool.false_eq_true, if_false] at hlen ⊢
    rw [if_pos hlen]
    split <;> rfl

/-- C2: when cancomm_transmit proceeds to build a wire frame on a connected
context, the frame identifier is the caller's id with CAN_EFF_FLAG
additionally set exactly when ext = CANCOMM_TRUE, the stored wire length is
cancomm_sanitize_frame_len len, the first len data bytes are copied from the
caller's buffer, and CANFD_BRS is set in the frame iff the context
negotiated CAN FD and the caller's flags include the CAN FD bit. -/
theorem claim_C2_transmit_frame (ctx : cancomm_ctx) (id ext len : Nat)
    (data : List Nat) (flags : Nat) (env : TxEnv)
    (hconn : ctx.socket ≠ CANCOMM_INVALID_SOCKET)
    (hlen : len ≤ txFrameLenMax ctx flags) :
    ∃ frame sz,
      (cancomm_transmit ctx id ext len data flags env).written =
        some (frame, sz) ∧
      frame.can_id = (if ext = CANCOMM_TRUE then Nat.lor id CAN_EFF_FLAG else id) ∧
      frame.len = cancomm_sanitize_frame_len len ∧
      (∀ i, i < len → frame.data.getD i 0 = data.getD i 0) ∧
      (Nat.land frame.flags CANFD_BRS ≠ 0 ↔
        (ctx.fd_enabled ≠ 0 ∧ Nat.land flags CANCOMM_FLAG_CANFD_MSG ≠ 0)) := by
  have hmax : txFrameLenMax ctx flags ≤ CANFD_MAX_DLEN := by
    unfold txFrameLenMax
    split <;> simp [CAN_MAX_DLEN, CANFD_MAX_DLEN]
  have h64 : len ≤ CANFD_MAX_DLEN := le_trans hlen hmax
  refine ⟨buildTxFrame id ext len data (txFrameFlags ctx flags),
    txFrameSizeMax ctx flags,
    transmit_written_eq ctx id ext len data flags env hconn hlen, rfl, rfl, ?_, ?_⟩
  · intro i hi
    have hi64 : i < CANFD_MAX_DLEN := lt_of_lt_of_le hi h64
    show (((List.range CANFD_MAX_DLEN).map
        (fun i => if i < len then data.getD i 0 else 0)).getD i 0) = data.getD i 0
    have hlenmap : ((List.range CANFD_MAX_DLEN).map
        (fun i => if i < len then data.getD i 0 else 0)).length = CANFD_MAX_DLEN := by
      simp
    rw [List.getD_eq_getElem _ _ (by rw [hlenmap]; exact hi64)]
    simp [List.getElem_map, List.getElem_range, hi]
  · show Nat.land (txFrameFlags ctx flags) CANFD_BRS ≠ 0 ↔ _
    unfold txFrameFlags
    rcases h1 : (ctx.fd_enabled != 0) with _ | _ <;>
      rcases h2 : (Nat.land flags CANCOMM_FLAG_CANFD_MSG != 0) with _ | _ <;>
      simp_all [bne_iff_ne, CANFD_BRS, Nat.lor] <;> decide

/-- Witness for C2 at a concrete connected context and frame. -/
theorem claim_C2_transmit_frame_witness :
    ∃ frame sz,
      (cancomm_transmit
        { socket := 5, fd_enabled := 0, connectTime := 0, devices_cnt := 0
          devices_list := [] }
        0x123 0 4 [1, 2, 0x55, 0xAA] 0
        { writeRet := 16, gtodOk := true, nowUsec := 1000 }).written =
        some (frame, sz) ∧
      frame.can_id = (if 0 = CANCOMM_TRUE then Nat.lor 0x123 CAN_EFF_FLAG else 0x123) ∧
      frame.len = cancomm_sanitize_frame_len 4 ∧
      (∀ i, i < 4 → frame.data.getD i 0 = List.getD [1, 2, 0x55, 0xAA] i 0) ∧
      (Nat.land frame.flags CANFD_BRS ≠ 0 ↔
        ((0 : Nat) ≠ 0 ∧ Nat.land 0 CANCOMM_FLAG_CANFD_MSG ≠ 0)) :=
  claim_C2_transmit_frame
    { socket := 5, fd_enabled := 0, connectTime := 0, devices_cnt := 0
      devices_list := [] }
    0x123 0 4 [1, 2, 0x55, 0xAA] 0
    { writeRet := 16, gtodOk := true, nowUsec := 1000 }
    (by decide) (by decide)

/-- C3: on a connected context, a requested length above the active maximum
payload (64 when CAN FD is negotiated and requested, 8 otherwise) makes
cancomm_transmit return CANCOMM_FALSE with no write attempted, no timestamp
stored, and the context unchanged. -/
theorem claim_C3_transmit_len_reject (ctx : cancomm_ctx) (id ext len : Nat)
    (data : List Nat) (flags : Nat) (env : TxEnv)
    (hconn : ctx.socket ≠ CANCOMM_INVALID_SOCKET)
    (hlen : txFrameLenMax ctx flags < len) :
    (cancomm_transmit ctx id ext len data flags env).result = CANCOMM_FALSE ∧
    (cancomm_transmit ctx id ext len data flags env).written = none ∧
    (cancomm_transmit ctx id ext len data flags env).timestampOut = none ∧
    (cancomm_transmit ctx id ext len data flags env).ctxAfter = ctx := by
  unfold cancomm_transmit txFrameLenMax at *
  by_cases h64 : len ≤ CANFD_MAX_DLEN
  · rw [if_pos h64, if_pos hconn]
    by_cases hmode :
        ((ctx.fd_enabled != 0) && (Nat.land flags CANCOMM_FLAG_CANFD_MSG != 0) : Bool)
    · simp only [hmode, if_true] at hlen ⊢
      rw [if_neg (Nat.not_le.mpr hlen)]
      exact ⟨rfl, rfl, rfl, rfl⟩
    · rw [Bool.not_eq_true] at hmode
      simp only [hmode, Bool.false_eq_true, if_false] at hlen ⊢
      rw [if_neg (Nat.not_le.mpr hlen)]
      exact ⟨rfl, rfl, rfl, rfl⟩
  · rw [if_neg h64]
    exact ⟨rfl, rfl, rfl, rfl⟩

/-- Witness for C3: transmitting 12 bytes on a classic-framing session. -/
theorem claim_C3_transmit_len_reject_witness :
    (cancomm_transmit
      { socket := 5, fd_enabled := 0, connectTime := 0, devices_cnt := 0
        devices_list := [] }
      0x123 0 12 (List.replicate 12 7) 0
      { writeRet := 16, gtodOk := true, nowUsec := 1000 }).result =
        CANCOMM_FALSE ∧
    (cancomm_transmit
      { socket := 5, fd_enabled := 0, connectTime := 0, devices_cnt := 0
        devices_list := [] }
      0x123 0 12 (List.replicate 12 7) 0
      { writeRet := 16, gtodOk := true, nowUsec := 1000 }).written = none ∧
    (cancomm_transmit
      { socket := 5, fd_enabled := 0, connectTime := 0, devices_cnt := 0
        devices_list := [] }
      0x123 0 12 (List.replicate 12 7) 0
      { writeRet := 16, gtodOk := true, nowUsec := 1000 }).timestampOut = none ∧
    (cancomm_transmit
      { socket := 5, fd_enabled := 0, connectTime := 0, devices_cnt := 0
        devices_list := [] }
      0x123 0 12 (List.replicate 12 7) 0
      { writeRet := 16, gtodOk := true, nowUsec := 1000 }).ctxAfter =
      { socket := 5, fd_enabled := 0, connectTime := 0, devices_cnt := 0
        devices_list := [] } :=
  claim_C3_transmit_len_reject
    { socket := 5, fd_enabled := 0, connectTime := 0, devices_cnt := 0
      devices_list := [] }
    0x123 0 12 (List.replicate 12 7) 0
    { writeRet := 16, gtodOk := true, nowUsec := 1000 }
    (by decide) (by decide)

/-- C5: an accepted read (size CAN_MTU or CANFD_MTU, no remote-request bit)
whose frame carries CAN_ERR_FLAG returns success with the
CANCOMM_FLAG_CANERR_MSG bit set in the output flags, id 0, ext
CANCOMM_FALSE and length 0, regardless of the frame's raw identifier bits
and payload. -/
theorem claim_C5_receive_error_frame (ctx : cancomm_ctx) (env : RxEnv)
    (hconn : ctx.socket ≠ CANCOMM_INVALID_SOCKET)
    (hsize : rxFrameSize env.readRet = CANFD_MTU ∨ rxFrameSize env.readRet = CAN_MTU)
    (hrtr : Nat.land env.frame.can_id CAN_RTR_FLAG = 0)
    (herr : Nat.land env.frame.can_id CAN_ERR_FLAG ≠ 0) :
    (cancomm_receive ctx env).result = CANCOMM_TRUE ∧
    (∃ f, (cancomm_receive ctx env).flagsOut = some f ∧
      Nat.land f CANCOMM_FLAG_CANERR_MSG ≠ 0) ∧
    (cancomm_receive ctx env).idOut = some 0 ∧
    (cancomm_receive ctx env).extOut = some CANCOMM_FALSE ∧
    (cancomm_receive ctx env).lenOut = some 0 := by
  unfold cancomm_receive
  rw [if_pos hconn]
  simp only []
  rw [if_pos hsize, if_pos hrtr, if_pos herr]
  exact ⟨rfl, ⟨Nat.lor 0 CANCOMM_FLAG_CANERR_MSG, rfl, by decide⟩, rfl, rfl, rfl⟩

/-- Witness for C5: an error frame with nonzero raw identifier bits. -/
theorem claim_C5_receive_error_frame_witness :
    (cancomm_receive
      { socket := 5, fd_enabled := 0, connectTime := 0, devices_cnt := 0
        devices_list := [] }
      { readRet := 16
        frame := { can_id := 0x20000123, len := 3, flags := 0, data := [9, 9, 9] }
        stampOk := true, stampUsec := 0 }).result = CANCOMM_TRUE ∧
    (∃ f, (cancomm_receive
      { socket := 5, fd_enabled := 0, connectTime := 0, devices_cnt := 0
        devices_list := [] }
      { readRet := 16
        frame := { can_id := 0x20000123, len := 3, flags := 0, data := [9, 9, 9] }
        stampOk := true, stampUsec := 0 }).flagsOut = some f ∧
      Nat.land f CANCOMM_FLAG_CANERR_MSG ≠ 0) ∧
    (cancomm_receive
      { socket := 5, fd_enabled := 0, connectTime := 0, devices_cnt := 0
        devices_list := [] }
      { readRet := 16
        frame := { can_id := 0x20000123, len := 3, flags := 0, data := [9, 9, 9] }
        stampOk := true, stampUsec := 0 }).idOut = some 0 ∧
    (cancomm_receive
      { socket := 5, fd_enabled := 0, connectTime := 0, devices_cnt := 0
        devices_list := [] }
      { readRet := 16
        frame := { can_id := 0x20000123, len := 3, flags := 0, data := [9, 9, 9] }
        stampOk := true, stampUsec := 0 }).extOut = some CANCOMM_FALSE ∧
    (cancomm_receive
      { socket := 5, fd_enabled := 0, connectTime := 0, devices_cnt := 0
        devices_list := [] }
      { readRet := 16
        frame := { can_id := 0x20000123, len := 3, flags := 0, data := [9, 9, 9] }
        stampOk := true, stampUsec := 0 }).lenOut = some 0 :=
  claim_C5_receive_error_frame
    { socket := 5, fd_enabled := 0, connectTime := 0, devices_cnt := 0
      devices_list := [] }
    { readRet := 16
      frame := { can_id := 0x20000123, len := 3, flags := 0, data := [9, 9, 9] }
      stampOk := true, stampUsec := 0 }
    (by decide) (by decide) (by decide) (by decide)

/-- C6: an accepted non-error data frame surfaces the wire identifier with
CAN_EFF_FLAG masked off, ext CANCOMM_TRUE exactly when the marker bit was
set, the CAN FD output flag exactly when the byte count read equals
CANFD_MTU, and the length and first length payload bytes exactly as read. -/
theorem claim_C6_receive_data_frame (ctx : cancomm_ctx) (env : RxEnv)
    (hconn : ctx.socket ≠ CANCOMM_INVALID_SOCKET)
    (hsize : rxFrameSize env.readRet = CANFD_MTU ∨ rxFrameSize env.readRet = CAN_MTU)
    (hrtr : Nat.land env.frame.can_id CAN_RTR_FLAG = 0)
    (herr : Nat.land env.frame.can_id CAN_ERR_FLAG = 0) :
    (cancomm_receive ctx env).result = CANCOMM_TRUE ∧
    (cancomm_receive ctx env).idOut =
      some (Nat.land env.frame.can_id (UINT32_MOD - 1 - CAN_EFF_FLAG)) ∧
    ((cancomm_receive ctx env).extOut = some CANCOMM_TRUE ↔
      Nat.land env.frame.can_id CAN_EFF_FLAG ≠ 0) ∧
    ((cancomm_receive ctx env).extOut = some CANCOMM_FALSE ↔
      Nat.land env.frame.can_id CAN_EFF_FLAG = 0) ∧
    (∃ f, (cancomm_receive ctx env).flagsOut = some f ∧
      (Nat.land f CANCOMM_FLAG_CANFD_MSG ≠ 0 ↔
        rxFrameSize env.readRet = CANFD_MTU)) ∧
    (cancomm_receive ctx env).lenOut = some env.frame.len ∧
    (cancomm_receive ctx env).dataOut =
      some (env.frame.data.take env.frame.len) := by
  unfold cancomm_receive
  rw [if_pos hconn]
  simp only []
  rw [if_pos hsize, if_pos hrtr, if_neg (by simpa using herr)]
  refine ⟨rfl, rfl, ?_, ?_, ?_, rfl, rfl⟩
  · by_cases heff : Nat.land env.frame.can_id CAN_EFF_FLAG = 0 <;>
      simp [heff, CANCOMM_TRUE, CANCOMM_FALSE]
  · by_cases heff : Nat.land env.frame.can_id CAN_EFF_FLAG = 0 <;>
      simp [heff, CANCOMM_TRUE, CANCOMM_FALSE]
  · by_cases hfd : rxFrameSize env.readRet = CANFD_MTU
    · exact ⟨_, by rw [if_pos hfd], by simp [hfd]; decide⟩
    · exact ⟨_, by rw [if_neg hfd], by simp [hfd]; decide⟩

/-- Witness for C6: a classic-size read of an extended-identifier frame. -/
theorem claim_C6_receive_data_frame_witness :
    (cancomm_receive
      { socket := 5, fd_enabled := 0, connectTime := 0, devices_cnt := 0
        devices_list := [] }
      { readRet := 16
        frame := { can_id := 0x800123A5, len := 2, flags := 0, data := [17, 34, 51] }
        stampOk := true, stampUsec := 0 }).result = CANCOMM_TRUE ∧
    (cancomm_receive
      { socket := 5, fd_enabled := 0, connectTime := 0, devices_cnt := 0
        devices_list := [] }
      { readRet := 16
        frame := { can_id := 0x800123A5, len := 2, flags := 0, data := [17, 34, 51] }
        stampOk := true, stampUsec := 0 }).idOut =
      some (Nat.land 0x800123A5 (UINT32_MOD - 1 - CAN_EFF_FLAG)) ∧
    ((cancomm_receive
      { socket := 5, fd_enabled := 0, connectTime := 0, devices_cnt := 0
        devices_list := [] }
      { readRet := 16
        frame := { can_id := 0x800123A5, len := 2, flags := 0, data := [17, 34, 51] }
        stampOk := true, stampUsec := 0 }).extOut = some CANCOMM_TRUE ↔
      Nat.land 0x800123A5 CAN_EFF_FLAG ≠ 0) ∧
    ((cancomm_receive
      { socket := 5, fd_enabled := 0, connectTime := 0, devices_cnt := 0
        devices_list := [] }
      { readRet := 16
        frame := { can_id := 0x800123A5, len := 2, flags := 0, data := [17, 34, 51] }
        stampOk := true, stampUsec := 0 }).extOut = some CANCOMM_FALSE ↔
      Nat.land 0x800123A5 CAN_EFF_FLAG = 0) ∧
    (∃ f, (cancomm_receive
      { socket := 5, fd_enabled := 0, connectTime := 0, devices_cnt := 0
        devices_list := [] }
      { readRet := 16
        frame := { can_id := 0x800123A5, len := 2, flags := 0, data := [17, 34, 51] }
        stampOk := true, stampUsec := 0 }).flagsOut = some f ∧
      (Nat.land f CANCOMM_FLAG_CANFD_MSG ≠ 0 ↔
        rxFrameSize 16 = CANFD_MTU)) ∧
    (cancomm_receive
      { socket := 5, fd_enabled := 0, connectTime := 0, devices_cnt := 0
        devices_list := [] }
      { readRet := 16
        frame := { can_id := 0x800123A5, len := 2, flags := 0, data := [17, 34, 51] }
        stampOk := true, stampUsec := 0 }).lenOut = some 2 ∧
    (cancomm_receive
      { socket := 5, fd_enabled := 0, connectTime := 0, devices_cnt := 0
        devices_list := [] }
      { readRet := 16
        frame := { can_id := 0x800123A5, len := 2, flags := 0, data := [17, 34, 51] }
        stampOk := true, stampUsec := 0 }).dataOut =
      some (List.take 2 [17, 34, 51]) :=
  claim_C6_receive_data_frame
    { socket := 5, fd_enabled := 0, connectTime := 0, devices_cnt := 0
      devices_list := [] }
    { readRet := 16
      frame := { can_id := 0x800123A5, len := 2, flags := 0, data := [17, 34, 51] }
      stampOk := true, stampUsec := 0 }
    (by decide) (by decide) (by decide) (by decide)

/-- C7: cancomm_receive reports "not available" (CANCOMM_FALSE, no output
written) whenever the byte count read is neither CAN_MTU nor CANFD_MTU
(including partial reads and the no-data -1 return) and whenever the frame
read carries the remote-request bit CAN_RTR_FLAG. -/
theorem claim_C7_receive_not_available (ctx : cancomm_ctx) (env : RxEnv)
    (hconn : ctx.socket ≠ CANCOMM_INVALID_SOCKET)
    (hbad : (rxFrameSize env.readRet ≠ CANFD_MTU ∧
        rxFrameSize env.readRet ≠ CAN_MTU) ∨
      Nat.land env.frame.can_id CAN_RTR_FLAG ≠ 0) :
    (cancomm_receive ctx env).result = CANCOMM_FALSE ∧
    (cancomm_receive ctx env).idOut = none ∧
    (cancomm_receive ctx env).extOut = none ∧
    (cancomm_receive ctx env).lenOut = none ∧
    (cancomm_receive ctx env).dataOut = none ∧
    (cancomm_receive ctx env).flagsOut = none ∧
    (cancomm_receive ctx env).timestampOut = none ∧
    (cancomm_receive ctx env).ctxAfter = ctx := by
  unfold cancomm_receive
  rw [if_pos hconn]
  simp only []
  by_cases hsz : rxFrameSize env.readRet = CANFD_MTU ∨ rxFrameSize env.readRet = CAN_MTU
  · rcases hbad with ⟨h1, h2⟩ | hrtr
    · exact absurd hsz (by tauto)
    · rw [if_pos hsz, if_neg hrtr]
      exact ⟨rfl, rfl, rfl, rfl, rfl, rfl, rfl, rfl⟩
  · rw [if_neg hsz]
    exact ⟨rfl, rfl, rfl, rfl, rfl, rfl, rfl, rfl⟩

/-- Witness for C7: a -1 read return (no data on the non-blocking socket). -/
theorem claim_C7_receive_not_available_witness :
    (cancomm_receive
      { socket := 5, fd_enabled := 0, connectTime := 0, devices_cnt := 0
        devices_list := [] }
      { readRet := -1
        frame := { can_id := 0, len := 0, flags := 0, data := [] }
        stampOk := true, stampUsec := 0 }).result = CANCOMM_FALSE ∧
    (cancomm_receive
      { socket := 5, fd_enabled := 0, connectTime := 0, devices_cnt := 0
        devices_list := [] }
      { readRet := -1
        frame := { can_id := 0, len := 0, flags := 0, data := [] }
        stampOk := true, stampUsec := 0 }).idOut = none ∧
    (cancomm_receive
      { socket := 5, fd_enabled := 0, connectTime := 0, devices_cnt := 0
        devices_list := [] }
      { readRet := -1
        frame := { can_id := 0, len := 0, flags := 0, data := [] }
        stampOk := true, stampUsec := 0 }).extOut = none ∧
    (cancomm_receive
      { socket := 5, fd_enabled := 0, connectTime := 0, devices_cnt := 0
        devices_list := [] }
      { readRet := -1
        frame := { can_id := 0, len := 0, flags := 0, data := [] }
        stampOk := true, stampUsec := 0 }).lenOut = none ∧
    (cancomm_receive
      { socket := 5, fd_enabled := 0, connectTime := 0, devices_cnt := 0
        devices_list := [] }
      { readRet := -1
        frame := { can_id := 0, len := 0, flags := 0, data := [] }
        stampOk := true, stampUsec := 0 }).dataOut = none ∧
    (cancomm_receive
      { socket := 5, fd_enabled := 0, connectTime := 0, devices_cnt := 0
        devices_list := [] }
      { readRet := -1
        frame := { can_id := 0, len := 0, flags := 0, data := [] }
        stampOk := true, stampUsec := 0 }).flagsOut = none ∧
    (cancomm_receive
      { socket := 5, fd_enabled := 0, connectTime := 0, devices_cnt := 0
        devices_list := [] }
      { readRet := -1
        frame := { can_id := 0, len := 0, flags := 0, data := [] }
        stampOk := true, stampUsec := 0 }).timestampOut = none ∧
    (cancomm_receive
      { socket := 5, fd_enabled := 0, connectTime := 0, devices_cnt := 0
        devices_list := [] }
      { readRet := -1
        frame := { can_id := 0, len := 0, flags := 0, data := [] }
        stampOk := true, stampUsec := 0 }).ctxAfter =
      { socket := 5, fd_enabled := 0, connectTime := 0, devices_cnt := 0
        devices_list := [] } :=
  claim_C7_receive_not_available
    { socket := 5, fd_enabled := 0, connectTime := 0, devices_cnt := 0
      devices_list := [] }
    { readRet := -1
      frame := { can_id := 0, len := 0, flags := 0, data := [] }
      stampOk := true, stampUsec := 0 }
    (by decide) (Or.inl (by decide))

/-- C10: with the socket handle at the invalid sentinel, cancomm_transmit
returns CANCOMM_FALSE attempting no write and storing nothing, and
cancomm_receive returns CANCOMM_FALSE attempting no read and storing
nothing; both leave the context untouched. -/
theorem claim_C10_disconnected_reject (ctx : cancomm_ctx) (id ext len : Nat)
    (data : List Nat) (flags : Nat) (tenv : TxEnv) (renv : RxEnv)
    (hinv : ctx.socket = CANCOMM_INVALID_SOCKET) :
    cancomm_transmit ctx id ext len data flags tenv =
      { result := CANCOMM_FALSE, written := none, timestampOut := none
        ctxAfter := ctx } ∧
    cancomm_receive ctx renv =
      { result := CANCOMM_FALSE, idOut := none, extOut := none, lenOut := none
        dataOut := none, flagsOut := none, timestampOut := none
        ctxAfter := ctx } := by
  constructor
  · unfold cancomm_transmit
    by_cases h64 : len ≤ CANFD_MAX_DLEN
    · rw [if_pos h64, if_neg (fun h => h hinv)]
    · rw [if_neg h64]
  · unfold cancomm_receive
    rw [if_neg (fun h => h hinv)]

/-- Witness for C10 on a fresh (never connected) context. -/
theorem claim_C10_disconnected_reject_witness :
    cancomm_transmit cancomm_new 0x123 0 4 [1, 2, 3, 4] 0
      { writeRet := 16, gtodOk := true, nowUsec := 0 } =
      { result := CANCOMM_FALSE, written := none, timestampOut := none
        ctxAfter := cancomm_new } ∧
    cancomm_receive cancomm_new
      { readRet := 16
        frame := { can_id := 0x123, len := 2, flags := 0, data := [1, 2] }
        stampOk := true, stampUsec := 0 } =
      { result := CANCOMM_FALSE, idOut := none, extOut := none, lenOut := none
        dataOut := none, flagsOut := none, timestampOut := none
        ctxAfter := cancomm_new } :=
  claim_C10_disconnected_reject cancomm_new 0x123 0 4 [1, 2, 3, 4] 0
    { writeRet := 16, gtodOk := true, nowUsec := 0 }
    { readRet := 16
      frame := { can_id := 0x123, len := 2, flags := 0, data := [1, 2] }
      stampOk := true, stampUsec := 0 }
    rfl

/-- The handle a disconnect leaves behind is always the invalid sentinel. -/
theorem disconnect_socket_eq (ctx : cancomm_ctx) :
    (cancomm_disconnect ctx).socket = CANCOMM_INVALID_SOCKET := by
  unfold cancomm_disconnect
  split
  · rfl
  · rename_i h
    exact not_not.mp h

/-- The cancomm_connect result only depends on gettimeofday, the
non-blocking switch, the interface-index lookup and bind. -/
theorem connect_result_eq (ctx : cancomm_ctx) (env : ConnEnv) :
    (cancomm_connect ctx env).result =
      if env.gtodOk && env.fcntlSetOk && env.ifindexOk && env.bindOk
      then CANCOMM_TRUE else CANCOMM_FALSE := by
  unfold cancomm_connect
  cases hg : env.gtodOk <;> cases hf : env.fcntlSetOk <;>
    cases hx : env.ifindexOk <;> cases hb : env.bindOk <;>
    simp [hg, hf, hx, hb, Nat.not_lt_zero]

/-- Closed form of the negotiated fd_enabled flag when the negotiation
block runs. -/
theorem connect_fd_enabled_eq (ctx : cancomm_ctx) (env : ConnEnv)
    (hgtod : env.gtodOk = true) :
    (cancomm_connect ctx env).ctxAfter.fd_enabled =
      if env.mtuIoctlOk = true ∧ env.ifrMtu = (CANFD_MTU : Int) ∧
          env.setsockoptOk = true
      then CANCOMM_TRUE else CANCOMM_FALSE := by
  unfold cancomm_connect
  rw [if_neg (by simp [hgtod]), if_neg (Nat.not_lt_zero _)]
  cases hf : env.fcntlSetOk <;> cases hx : env.ifindexOk <;>
    cases hb : env.bindOk <;>
    by_cases hm : env.mtuIoctlOk = true <;>
    by_cases h72 : env.ifrMtu = (CANFD_MTU : Int) <;>
    by_cases h16 : env.ifrMtu = (CAN_MTU : Int) <;>
    by_cases hs : env.setsockoptOk = true <;>
    simp_all [CANCOMM_TRUE, CANCOMM_FALSE, CAN_MTU, CANFD_MTU]

/-- C4: once the negotiation block of cancomm_connect runs (gettimeofday
succeeded), the session's fd_enabled flag ends up CANCOMM_TRUE exactly when
the MTU ioctl succeeds reporting CANFD_MTU and the CAN FD socket option can
be enabled; and the connect result is unaffected by the MTU probe outcome
and the socket-option outcome (an unrecognized or classic MTU, a failed MTU
query, or a failed socket option never fail the call by themselves). -/
theorem claim_C4_connect_fd_negotiation (ctx : cancomm_ctx) (env : ConnEnv)
    (hgtod : env.gtodOk = true) :
    ((cancomm_connect ctx env).ctxAfter.fd_enabled = CANCOMM_TRUE ↔
      (env.mtuIoctlOk = true ∧ env.ifrMtu = (CANFD_MTU : Int) ∧
        env.setsockoptOk = true)) ∧
    (∀ m : Bool, ∀ i : Int, ∀ s : Bool,
      (cancomm_connect ctx
        { env with mtuIoctlOk := m, ifrMtu := i, setsockoptOk := s }).result =
      (cancomm_connect ctx env).result) := by
  constructor
  · rw [connect_fd_enabled_eq ctx env hgtod]
    by_cases hc : env.mtuIoctlOk = true ∧ env.ifrMtu = (CANFD_MTU : Int) ∧
        env.setsockoptOk = true
    · simp [hc]
    · simp [hc, CANCOMM_TRUE, CANCOMM_FALSE]
  · intro m i s
    rw [connect_result_eq, connect_result_eq]

/-- Witness for C4: successful FD negotiation on a concrete environment. -/
theorem claim_C4_connect_fd_negotiation_witness :
    ((cancomm_connect cancomm_new
      { gtodOk := true, nowUsec := 0, socketRet := 4, mtuIoctlOk := true
        ifrMtu := 72, setsockoptOk := true, fcntlGetRet := 0, fcntlSetOk := true
        ifindexOk := true, bindOk := true }).ctxAfter.fd_enabled = CANCOMM_TRUE ↔
      (true = true ∧ (72 : Int) = (CANFD_MTU : Int) ∧ true = true)) ∧
    (∀ m : Bool, ∀ i : Int, ∀ s : Bool,
      (cancomm_connect cancomm_new
        { gtodOk := true, nowUsec := 0, socketRet := 4, mtuIoctlOk := m
          ifrMtu := i, setsockoptOk := s, fcntlGetRet := 0, fcntlSetOk := true
          ifindexOk := true, bindOk := true }).result =
      (cancomm_connect cancomm_new
        { gtodOk := true, nowUsec := 0, socketRet := 4, mtuIoctlOk := true
          ifrMtu := 72, setsockoptOk := true, fcntlGetRet := 0, fcntlSetOk := true
          ifindexOk := true, bindOk := true }).result) :=
  claim_C4_connect_fd_negotiation cancomm_new
    { gtodOk := true, nowUsec := 0, socketRet := 4, mtuIoctlOk := true
      ifrMtu := 72, setsockoptOk := true, fcntlGetRet := 0, fcntlSetOk := true
      ifindexOk := true, bindOk := true }
    rfl

/-- C8: whenever cancomm_connect returns CANCOMM_FALSE, the context's
socket handle equals CANCOMM_INVALID_SOCKET on return, and if a socket
descriptor had been obtained it was closed during the call: a failed
connect always leaves the context disconnected. -/
theorem claim_C8_connect_failure_disconnected (ctx : cancomm_ctx)
    (env : ConnEnv)
    (hfail : (cancomm_connect ctx env).result = CANCOMM_FALSE) :
    (cancomm_connect ctx env).ctxAfter.socket = CANCOMM_INVALID_SOCKET ∧
    ((cancomm_connect ctx env).sockCreated = true →
      (cancomm_connect ctx env).sockClosed = true) := by
  unfold cancomm_connect at hfail ⊢
  cases hg : env.gtodOk <;> cases hf : env.fcntlSetOk <;>
    cases hx : env.ifindexOk <;> cases hb : env.bindOk <;>
    simp_all [Nat.not_lt_zero, CANCOMM_TRUE, CANCOMM_FALSE, disconnect_socket_eq]

/-- Witness for C8: connect failing at bind. -/
theorem claim_C8_connect_failure_disconnected_witness :
    (cancomm_connect cancomm_new
      { gtodOk := true, nowUsec := 0, socketRet := 4, mtuIoctlOk := true
        ifrMtu := 16, setsockoptOk := true, fcntlGetRet := 0, fcntlSetOk := true
        ifindexOk := true, bindOk := false }).ctxAfter.socket =
      CANCOMM_INVALID_SOCKET ∧
    ((cancomm_connect cancomm_new
      { gtodOk := true, nowUsec := 0, socketRet := 4, mtuIoctlOk := true
        ifrMtu := 16, setsockoptOk := true, fcntlGetRet := 0, fcntlSetOk := true
        ifindexOk := true, bindOk := false }).sockCreated = true →
      (cancomm_connect cancomm_new
        { gtodOk := true, nowUsec := 0, socketRet := 4, mtuIoctlOk := true
          ifrMtu := 16, setsockoptOk := true, fcntlGetRet := 0, fcntlSetOk := true
          ifindexOk := true, bindOk := false }).sockClosed = true) :=
  claim_C8_connect_failure_disconnected cancomm_new
    { gtodOk := true, nowUsec := 0, socketRet := 4, mtuIoctlOk := true
      ifrMtu := 16, setsockoptOk := true, fcntlGetRet := 0, fcntlSetOk := true
      ifindexOk := true, bindOk := false }
    (by decide)

set_option maxRecDepth 4000 in
/-- Counterexample to C9 as stated: with 256 CAN devices present,
cancomm_devices_buildlist returns the truncated uint8_t count 0, yet
cancomm_devices_name still returns a non-NULL name at index 0 >= 0. -/
theorem claim_C9_count_truncation :
    (cancomm_devices_buildlist cancomm_new envManyDevices).1 = 0 ∧
    cancomm_devices_name
      (cancomm_devices_buildlist cancomm_new envManyDevices).2 0 ≠ none := by
  constructor
  · decide
  · decide

/-- C9 (amended): provided the number of detected CAN devices fits the
uint8_t return type (at most 255), after cancomm_devices_buildlist returns
a count N, cancomm_devices_name returns a non-NULL name exactly for the
indices below N; and on a freshly created context the device count is 0, so
every index returns NULL. -/
theorem claim_C9_devices_name_range (ctx : cancomm_ctx) (env : BuildEnv)
    (idx : Nat)
    (hcnt : (cancomm_devices_buildlist ctx env).2.devices_cnt < 256) :
    (cancomm_devices_name (cancomm_devices_buildlist ctx env).2 idx ≠ none ↔
      idx < (cancomm_devices_buildlist ctx env).1) ∧
    cancomm_new.devices_cnt = 0 ∧
    cancomm_devices_name cancomm_new idx = none := by
  refine ⟨?_, rfl, ?_⟩
  · unfold cancomm_devices_buildlist at hcnt ⊢
    by_cases hga : env.getifaddrsOk
    · simp only [hga, if_true] at hcnt ⊢
      rw [Nat.mod_eq_of_lt hcnt]
      unfold cancomm_devices_name
      by_cases hlt :
          idx < (buildLoop env.interfaces env.reallocOk 0 ctx.devices_list).1 <;>
        simp [hlt]
    · simp only [hga, Bool.false_eq_true, if_false] at hcnt ⊢
      unfold cancomm_devices_name
      simp
  · unfold cancomm_devices_name cancomm_new
    simp

/-- Witness for C9 (amended) at one device and index 0. -/
theorem claim_C9_devices_name_range_witness :
    (cancomm_devices_name
        (cancomm_devices_buildlist cancomm_new envOneDevice).2 0 ≠ none ↔
      0 < (cancomm_devices_buildlist cancomm_new envOneDevice).1) ∧
    cancomm_new.devices_cnt = 0 ∧
    cancomm_devices_name cancomm_new 0 = none :=
  claim_C9_devices_name_range cancomm_new envOneDevice 0 (by decide)

end Cancomm
